import Mathlib

/-!
Verification of the Power BI Summarizer repository: shallow Lean embedding of
the companion cloud REST API (`cloud-api/app`) and of the plugin's pandas-based
widgets (`power_query_table.py`, `pivot_table_widget.py`, `data_summarizer.py`,
`cloud_session.py`), with theorems settling the specification claims.

Conventions used throughout:
* Python strings are modelled as Lean `String` (or `List Char` where character
  level reversal/encoding matters, since a Python `str` is a sequence of code
  points).
* SQL `NULL` / Python `None` is `Option.none`; fallible endpoints return
  `Except HTTPException α` where raising `HTTPException(code, detail)` is
  `.error ⟨code, detail⟩`.
* Library functions whose semantics the code merely delegates to (bcrypt
  hashing/verification, the pandas aggregation callable) are taken as explicit
  function parameters, so theorems quantify over them.
-/

/-- Stable insertion of `a` into `l`, placing it before the first element
`b` with `lt a b`. -/
def insertOrd (lt : α → α → Bool) (a : α) : List α → List α
  | [] => [a]
  | b :: bs => if lt a b then a :: b :: bs else b :: insertOrd lt a bs

/-- Stable insertion sort with strict comparator `lt`. -/
def sortOrd (lt : α → α → Bool) : List α → List α
  | [] => []
  | a :: as => insertOrd lt a (sortOrd lt as)

namespace CloudApi

/-- Python `str.strip(chars)`: drop the given characters from both ends. -/
def pyStrip (chars : List Char) (s : List Char) : List Char :=
  ((s.dropWhile (fun c => chars.contains c)).reverse.dropWhile
      (fun c => chars.contains c)).reverse

/-- Python `str.lower()` (ASCII model). -/
def pyLower (s : String) : String :=
  String.mk (s.toList.map Char.toLower)

/-- Python `str.upper()` (ASCII model). -/
def pyUpper (s : String) : String :=
  String.mk (s.toList.map Char.toUpper)

/-- Characters stripped by Python `str.strip()` (ASCII whitespace). -/
def pyWhitespaceChars : List Char :=
  [' ', '\t', '\n', '\x0d', '\x0b', '\x0c']

/-- Python `str.strip()` with no argument. -/
def pyStripWs (s : String) : String :=
  String.mk (pyStrip pyWhitespaceChars s.toList)

/-- Python `str.endswith(suffixStr)`. -/
def pyEndsWith (s suffixStr : String) : Bool :=
  suffixStr.toList.isSuffixOf s.toList

/-- Split a character list on a separator character (`str.split(sep)` /
`pathlib` component splitting). -/
def splitOnChar (sep : Char) : List Char → List (List Char)
  | [] => [[]]
  | c :: cs =>
      let rest := splitOnChar sep cs
      if c = sep then [] :: rest
      else
        match rest with
        | r :: rs => (c :: r) :: rs
        | [] => [[c]]

/-- An HTTP error response: FastAPI `HTTPException(status_code, detail)`. -/
structure HTTPException where
  status_code : Nat
  detail : String
deriving Repr, DecidableEq

/-- Row of the `users` table (`app/models.py`, class `User`).
`role` is `nullable=False`, default `"user"`. -/
structure User where
  id : Nat
  email : String
  password_hash : String
  role : String
deriving Repr, DecidableEq

/-- `User.is_admin` property: `(self.role or "").lower() == "admin"`. -/
def User.is_admin (u : User) : Bool :=
  pyLower u.role == "admin"

/-- Row of the `layers` table (`app/models.py`, class `Layer`).
Nullable columns are `Option`; `name` and `provider` are `nullable=False`. -/
structure Layer where
  id : Nat
  name : String
  provider : String
  uri : Option String
  description : Option String
  group_name : Option String
  schema : Option String
  srid : Option Int
  epsg : Option Int
  geom_type : Option String
  created_by_user_id : Option Nat
deriving Repr, DecidableEq

/-- `schemas.CreateUserRequest`. -/
structure CreateUserRequest where
  email : String
  password : String
deriving Repr, DecidableEq

/-- Module-level names bound in `app/auth.py` (its `import`s and `def`s):
these are the attributes `from app.auth import X` can resolve. -/
def authModuleNames : List String :=
  ["os", "datetime", "timedelta", "timezone", "Optional", "Depends",
   "HTTPException", "status", "HTTPAuthorizationCredentials", "HTTPBearer",
   "JWTError", "jwt", "CryptContext", "Session", "get_db", "User",
   "pwd_context", "security_scheme", "JWT_SECRET", "JWT_ALGORITHM",
   "JWT_EXPIRES", "hash_password", "verify_password", "create_access_token",
   "authenticate_user", "get_current_user"]

/-- The names `app/admin.py` line 14 imports from `app.auth`:
`from app.auth import get_current_user, get_password_hash`. -/
def adminAuthImportNames : List String :=
  ["get_current_user", "get_password_hash"]

/-- Whether every name imported by `app/admin.py` from `app.auth` resolves to
a module attribute of `app.auth`; Python raises `ImportError` otherwise. -/
def adminAuthImportsResolve : Bool :=
  adminAuthImportNames.all (fun n => authModuleNames.contains n)

/-- Body of `POST /admin/create-user` (`app/admin.py`, `create_user`),
assuming the password-hash import had resolved to `auth.hash_password`
(modelled by the `hash` parameter).  Returns the created user and the new
user table on success (HTTP 201). -/
def create_user (hash : String → String) (payload : CreateUserRequest)
    (users : List User) (nextId : Nat) (current_user : User) :
    Except HTTPException (User × List User) :=
  if ¬ current_user.is_admin then
    .error ⟨403, "Apenas admins podem criar usuarios."⟩
  else if (users.find? (fun u => u.email == payload.email)).isSome then
    .error ⟨400, "E-mail ja cadastrado"⟩
  else
    let user : User :=
      { id := nextId
        email := payload.email
        password_hash := hash payload.password
        role := "user" }
    .ok (user, users ++ [user])

/-- ASCII characters matched by the regex class `\s` (`re` module). -/
def pyIsSpace (c : Char) : Bool :=
  c = ' ' ∨ c = '\t' ∨ c = '\n' ∨ c = '\x0d' ∨ c = '\x0b' ∨ c = '\x0c'

/-- `schemas._EMAIL_REGEX.fullmatch`: the pattern
`^[^@\s]+@[^@\s]+\.[^@\s]+$` matches a string exactly when it has no
whitespace, exactly one `@`, a nonempty local part, and a `.` somewhere in
the interior of the domain part (the character classes admit `.`, so the
split around the mandatory dot may land on any interior dot). -/
def emailValid (s : String) : Bool :=
  let cs := s.toList
  let localPart := cs.takeWhile (fun c => c ≠ '@')
  let domain := (cs.dropWhile (fun c => c ≠ '@')).drop 1
  cs.all (fun c => ¬ pyIsSpace c) &&
    cs.count '@' == 1 &&
    ¬ localPart.isEmpty &&
    ((domain.drop 1).dropLast.contains '.')

/-- JWT payload produced by `jose.jwt.encode` in `auth.create_access_token`:
the shallow model keeps the claims dict `{"sub": ..., "exp": ...}` (the
signing itself is the `jose` library). `now` is the current epoch second. -/
structure TokenPayload where
  sub : String
  exp : Nat
deriving Repr, DecidableEq

/-- `auth.create_access_token`: `expire_seconds = expires_in or JWT_EXPIRES`
(Python truthiness: `None` and `0` both fall back to `JWT_EXPIRES`). -/
def create_access_token (jwtExpires : Nat) (now : Nat) (subject : String)
    (expires_in : Option Nat) : TokenPayload :=
  let expire_seconds :=
    match expires_in with
    | some e => if e = 0 then jwtExpires else e
    | none => jwtExpires
  { sub := subject, exp := now + expire_seconds }

/-- `auth.authenticate_user`: first user with the given email, `none` when
absent or when `verify_password` rejects the password against the stored
hash. `verify` abstracts passlib's bcrypt `pwd_context.verify`. -/
def authenticate_user (verify : String → String → Bool) (users : List User)
    (email password : String) : Option User :=
  match users.find? (fun u => u.email == email) with
  | none => none
  | some user => if ¬ verify password user.password_hash then none else some user

/-- `schemas.TokenResponse`. -/
structure TokenResponse where
  access_token : TokenPayload
  token_type : String
  expires_in : Nat
deriving Repr, DecidableEq

/-- `POST /login` (`app/main.py`, `login`), including the pydantic
validation of `LoginRequest.email`: FastAPI answers 422 when the payload
fails validation, before the endpoint body runs. -/
def login (verify : String → String → Bool) (jwtExpires : Nat) (now : Nat)
    (users : List User) (email password : String) :
    Except HTTPException TokenResponse :=
  if ¬ emailValid email then
    .error ⟨422, "Invalid email format"⟩
  else
    match authenticate_user verify users email password with
    | none => .error ⟨401, "Invalid email or password"⟩
    | some user =>
        .ok { access_token := create_access_token jwtExpires now (toString user.id) none
              token_type := "bearer"
              expires_in := jwtExpires }

/-- Predicate of the claim's 401 condition: no user with the given email
exists, or the given password does not verify against that user's hash. -/
def badCredentials (verify : String → String → Bool) (users : List User)
    (email password : String) : Prop :=
  users.find? (fun u => u.email == email) = none ∨
    ∃ u, users.find? (fun u => u.email == email) = some u ∧
      verify password u.password_hash = false

/-- Characters kept by `admin._INVALID_FILENAME_CHARS` (`[^A-Za-z0-9_.-]`). -/
def validFilenameChar (c : Char) : Bool :=
  c.isAlpha ∨ c.isDigit ∨ c = '_' ∨ c = '.' ∨ c = '-'

/-- Helper for `_INVALID_FILENAME_CHARS.sub("_", name)`: `prevInvalid`
records whether the previous character belonged to an invalid run. -/
def collapseRuns (prevInvalid : Bool) : List Char → List Char
  | [] => []
  | c :: cs =>
      if validFilenameChar c then c :: collapseRuns false cs
      else if prevInvalid then collapseRuns true cs
      else '_' :: collapseRuns true cs

/-- `_INVALID_FILENAME_CHARS.sub("_", name)`: every maximal run of invalid
characters becomes a single underscore. -/
def collapseInvalidRuns (cs : List Char) : List Char :=
  collapseRuns false cs

/-- `admin._sanitize_filename`: collapse invalid runs to `_`, strip leading
and trailing `.`/`_`, and fall back to `"layer"` when nothing remains. -/
def sanitizeFilename (name : String) : String :=
  let sanitized := pyStrip ['.', '_'] (collapseInvalidRuns name.toList)
  if sanitized.isEmpty then "layer" else String.mk sanitized

/-- Final path component (`pathlib`: text after the last `/`). -/
def lastComponent (cs : List Char) : List Char :=
  (cs.reverse.takeWhile (fun c => c ≠ '/')).reverse

/-- `pathlib.PurePath(filename).stem`: the final component with its suffix
removed; a name has a suffix only when its last dot has index `i` with
`0 < i < len(name) - 1`. -/
def pathStem (cs : List Char) : List Char :=
  let nm := lastComponent cs
  match nm.reverse.findIdx? (fun c => c = '.') with
  | none => nm
  | some j =>
      let i := nm.length - 1 - j
      if 0 < i ∧ i < nm.length - 1 then nm.take i else nm

/-- Row of the GPKG's `gpkg_geometry_columns` joined with
`gpkg_spatial_ref_sys` (the SELECT in `_extract_gpkg_metadata`),
in the `ORDER BY g.table_name` order. -/
structure GpkgGeomRow where
  table_name : String
  column_name : Option String
  geometry_type_name : Option String
  organization : Option String
  organization_coordsys_id : Option Int
  srs_id : Option Int
deriving Repr, DecidableEq

/-- Row of the GPKG's `gpkg_contents` table (fields read by the code). -/
structure GpkgContentsRow where
  table_name : String
  identifier : Option String
deriving Repr, DecidableEq

/-- Relevant content of an uploaded GeoPackage file. -/
structure GpkgFile where
  geometryRows : List GpkgGeomRow
  contents : List GpkgContentsRow
deriving Repr, DecidableEq

/-- `admin.GpkgMetadata` (the `extent` field is not used by the upload
endpoint and is omitted). -/
structure GpkgMetadata where
  table_name : String
  geometry_column : String
  geometry_type : String
  srid : Option Int
  identifier : String
deriving Repr, DecidableEq

/-- `admin._extract_gpkg_metadata` on an openable GPKG file: 400 when the
file has no geometry columns or the first row has no geometry type/column;
the SRID prefers an EPSG organization id and falls back to `srs_id`. -/
def extract_gpkg_metadata (f : GpkgFile) : Except HTTPException GpkgMetadata :=
  match f.geometryRows with
  | [] => .error ⟨400, "O arquivo GPKG nao possui colunas de geometria."⟩
  | row :: _ =>
      let srid : Option Int :=
        if (row.organization.getD "") ≠ "" ∧
            pyUpper (row.organization.getD "") = "EPSG" ∧
            row.organization_coordsys_id.isSome then
          row.organization_coordsys_id
        else
          row.srs_id
      let identifier : String :=
        match f.contents.find? (fun c => c.table_name == row.table_name) with
        | some c => if (c.identifier.getD "") ≠ "" then c.identifier.getD "" else row.table_name
        | none => row.table_name
      let geom_type_name := pyStripWs (pyUpper (row.geometry_type_name.getD ""))
      if geom_type_name = "" ∨ (row.column_name.getD "") = "" then
        .error ⟨400, "Nao foi possivel identificar o tipo de geometria do arquivo GPKG."⟩
      else
        .ok { table_name := row.table_name
              geometry_column := row.column_name.getD ""
              geometry_type := geom_type_name
              srid := srid
              identifier := identifier }

/-- Result of one `POST /admin/upload-layer-gpkg` request: the HTTP
response, whether the uploaded file remains on disk under `UPLOAD_DIR`,
and the `layers` table afterwards. -/
structure UploadOutcome where
  response : Except HTTPException Layer
  fileOnDisk : Bool
  layers : List Layer
deriving Repr

/-- The display name the upload endpoint stores: the stripped `name` form
field when nonempty, else the sanitized filename stem (`safe_display_name`
in `admin.upload_layer_gpkg`). -/
def uploadDisplayName (filename name : Option String) : String :=
  if pyStripWs (name.getD "") ≠ "" then pyStripWs (name.getD "")
  else sanitizeFilename (String.mk (pathStem (filename.getD "").toList))

/-- The body of `admin.upload_layer_gpkg`'s `try` block after the uploaded
file has been written: metadata extraction, SRID checks, and the commit.
`layersAtCommit` is the table snapshot the commit sees; the
`IntegrityError` on `uq_layers_name_provider_user` fires exactly when that
snapshot already holds the same (name, provider, user) triple (the
endpoint's own pre-check makes this reachable only through a concurrent
insert).  Every `.error` models an exception raised inside `try`. -/
def upload_try_body (current_user : User) (safe_display_name : String)
    (description group_name : Option String) (epsg : Option Int)
    (gpkg : GpkgFile) (relativeUri : String)
    (layersAtCommit : List Layer) (nextId : Nat) : Except HTTPException Layer :=
  match extract_gpkg_metadata gpkg with
  | .error e => .error e
  | .ok metadata =>
  if metadata.srid = none ∧ epsg = none then
    .error ⟨400, "Nao foi possivel determinar o SRID do arquivo GPKG. Informe um EPSG valido."⟩
  else if (match metadata.srid, epsg with
           | some d, some e => d != e
           | _, _ => false : Bool) then
    .error ⟨400, "O EPSG informado nao corresponde ao SRID do arquivo GPKG."⟩
  else
    let final_srid : Option Int :=
      match metadata.srid with
      | some d => if d = 0 then epsg else some d
      | none => epsg
    let normalized_group :=
      if pyStripWs (group_name.getD "") = "" then none
      else some (pyStripWs (group_name.getD ""))
    let layer : Layer :=
      { id := nextId
        name := safe_display_name
        provider := "gpkg"
        uri := some relativeUri
        description := description
        group_name := normalized_group
        schema := none
        srid := final_srid
        epsg := final_srid
        geom_type := some metadata.geometry_type
        created_by_user_id := some current_user.id }
    if layersAtCommit.any (fun l =>
          l.name == safe_display_name && l.provider == "gpkg" &&
            l.created_by_user_id == some current_user.id) then
      .error ⟨400, "Ja existe uma camada com este nome."⟩
    else
      .ok layer

/-- `admin.upload_layer_gpkg`.  `relativeUri` stands for the generated
`gpkg/<date>/<uuid>_<stem>.gpkg` upload path.  The checks before the
`try` block (admin, `.gpkg` extension, uniqueness pre-check against
`layersAtCheck`) fail without writing anything; once the file is written,
any exception raised in the `try` body is caught by the `except` handlers,
which roll the transaction back and `_cleanup_file` the written file
(modelled as succeeding), re-raising the error. -/
def upload_layer_gpkg (current_user : User) (filename : Option String)
    (name description group_name : Option String) (epsg : Option Int)
    (gpkg : GpkgFile) (relativeUri : String)
    (layersAtCheck layersAtCommit : List Layer) (nextId : Nat) : UploadOutcome :=
  if ¬ current_user.is_admin then
    { response := .error ⟨403, "Apenas admins podem executar esta acao."⟩
      fileOnDisk := false, layers := layersAtCommit }
  else if ¬ pyEndsWith (pyLower (filename.getD "")) ".gpkg" then
    { response := .error ⟨400, "Envie um arquivo com extensao .gpkg"⟩
      fileOnDisk := false, layers := layersAtCommit }
  else if (layersAtCheck.find? (fun l =>
        l.name == uploadDisplayName filename name && l.provider == "gpkg" &&
          l.created_by_user_id == some current_user.id)).isSome then
    { response := .error ⟨400, "Ja existe uma camada com este nome para este usuario."⟩
      fileOnDisk := false, layers := layersAtCommit }
  else
    -- the upload file is written here, then the try block runs
    match upload_try_body current_user (uploadDisplayName filename name) description
        group_name epsg gpkg relativeUri layersAtCommit nextId with
    | .error e =>
        -- except: db.rollback(); _cleanup_file(target_path); raise
        { response := .error e, fileOnDisk := false, layers := layersAtCommit }
    | .ok layer =>
        { response := .ok layer
          fileOnDisk := true
          layers := layersAtCommit ++ [layer] }

/-- Whether the upload request passes every check that precedes the file
write (admin caller, `.gpkg` extension, uniqueness pre-check). -/
def uploadWriteReached (current_user : User) (filename : Option String)
    (name : Option String) (layersAtCheck : List Layer) : Bool :=
  current_user.is_admin && pyEndsWith (pyLower (filename.getD "")) ".gpkg" &&
    !(layersAtCheck.find? (fun l =>
        l.name == uploadDisplayName filename name && l.provider == "gpkg" &&
          l.created_by_user_id == some current_user.id)).isSome

-- Path model for GET /layers/{id}/download-gpkg ------------------------------

/-- Split a POSIX path string on `/` into raw components. -/
def splitSlash (s : String) : List String :=
  (splitOnChar '/' s.toList).map String.mk

/-- `pathlib`: `base / uri` keeps only `uri` when `uri` is absolute. -/
def pathJoin (base : List String) (uri : String) : List String :=
  match uri.toList with
  | '/' :: _ => splitSlash uri
  | _ => base ++ splitSlash uri

/-- `Path.resolve()` on an absolute path, lexically: drop empty and `.`
components and let `..` pop the previous component (staying at the root
when there is none).  Symlinks are outside this model. -/
def resolveComponents (cs : List String) : List String :=
  cs.foldl
    (fun acc c =>
      if c = "" ∨ c = "." then acc
      else if c = ".." then acc.dropLast
      else acc ++ [c])
    []

/-- `GET /layers/{layer_id}/download-gpkg` (`app/main.py`,
`download_layer_gpkg`).  `existingFiles` is the set of resolved paths of
regular files; on success the endpoint serves `FileResponse` at the
returned resolved path. -/
def download_layer_gpkg (uploadDir : String) (existingFiles : List (List String))
    (layers : List Layer) (layer_id : Nat) (authedUser : Option User) :
    Except HTTPException (List String) :=
  match authedUser with
  | none => .error ⟨401, "Could not validate credentials"⟩
  | some _ =>
      match layers.find? (fun l => l.id == layer_id) with
      | none => .error ⟨404, "Camada nao encontrada"⟩
      | some layer =>
          if pyLower layer.provider ≠ "gpkg" then
            .error ⟨400, "Download disponivel apenas para camadas GPKG."⟩
          else if (layer.uri.getD "") = "" then
            .error ⟨404, "Caminho do GPKG nao registrado para esta camada."⟩
          else if ¬ (resolveComponents (splitSlash uploadDir)).isPrefixOf
              (resolveComponents (pathJoin (splitSlash uploadDir) (layer.uri.getD ""))) then
            .error ⟨400, "Caminho do arquivo invalido."⟩
          else if ¬ existingFiles.contains
              (resolveComponents (pathJoin (splitSlash uploadDir) (layer.uri.getD ""))) then
            .error ⟨404, "Arquivo GPKG nao encontrado."⟩
          else
            .ok (resolveComponents (pathJoin (splitSlash uploadDir) (layer.uri.getD "")))

-- Serialization of layers (GET /layers) --------------------------------------

/-- `schemas.LayerOut`: pydantic model with non-optional `schema`, `srid`
and `geom_type`. -/
structure LayerOut where
  id : Nat
  name : String
  schema : String
  srid : Int
  geom_type : String
deriving Repr, DecidableEq

/-- Pydantic validation of a `Layer` ORM row against `LayerOut`
(`from_attributes`): `none` is the `ValidationError` FastAPI turns into a
500 response, raised when a non-optional field holds `NULL`. -/
def serializeLayerOut (l : Layer) : Option LayerOut :=
  match l.schema, l.srid, l.geom_type with
  | some s, some r, some g => some ⟨l.id, l.name, s, r, g⟩
  | _, _, _ => none

/-- `GET /layers`: every stored layer ordered ascending by name, each
serialized through `LayerOut`; `none` when any row fails validation. -/
def list_layers (layers : List Layer) : Option (List LayerOut) :=
  (sortOrd (fun a b => decide (a.name < b.name)) layers).mapM serializeLayerOut


-- Concrete fixtures used by witnesses and counterexamples ---------------------

/-- Fixture: an admin user. -/
def exAdmin : User :=
  { id := 1, email := "a@b.co", password_hash := "h", role := "admin" }

/-- Fixture: a regular user. -/
def exPlainUser : User :=
  { id := 1, email := "a@b.co", password_hash := "h", role := "user" }

/-- Fixture: a geometry-columns row with no SRID information. -/
def exNoSridRow : GpkgGeomRow :=
  { table_name := "t"
    column_name := some "geom"
    geometry_type_name := some "POINT"
    organization := none
    organization_coordsys_id := none
    srs_id := none }

/-- Fixture: a GPKG whose SRID cannot be determined. -/
def exGpkgNoSrid : GpkgFile :=
  { geometryRows := [exNoSridRow], contents := [] }

/-- Fixture: a geometry-columns row carrying EPSG:4326. -/
def exRoadsRow : GpkgGeomRow :=
  { table_name := "roads"
    column_name := some "geom"
    geometry_type_name := some "LINESTRING"
    organization := some "EPSG"
    organization_coordsys_id := some 4326
    srs_id := some 4326 }

/-- Fixture: a well-formed GPKG with EPSG:4326 line geometry. -/
def exGpkgRoads : GpkgFile :=
  { geometryRows := [exRoadsRow], contents := [] }

/-- Fixture: the layer row the upload endpoint stores for `exGpkgRoads`
uploaded as `roads.gpkg` by `exAdmin` with no form fields. -/
def exRoadsLayer : Layer :=
  { id := 1, name := "roads", provider := "gpkg"
    uri := some "gpkg/2026/10/12/u_roads.gpkg", description := none
    group_name := none, schema := none, srid := some 4326
    epsg := some 4326, geom_type := some "LINESTRING"
    created_by_user_id := some 1 }

/-- Fixture: a stored layer whose uri climbs out of the upload directory. -/
def exTraversalLayer : Layer :=
  { id := 1, name := "l", provider := "gpkg", uri := some "../../etc/passwd"
    description := none, group_name := none, schema := none, srid := none
    epsg := none, geom_type := none, created_by_user_id := none }

end CloudApi

namespace DataSummarizer

/-- The `basic_stats` dict produced by both summary builders
(`data_summarizer.py`): six numeric entries plus the standard deviation.
Totals and averages are exact rationals in the model; the standard
deviation lives in `ℝ` because of the square root. -/
structure BasicStats where
  total : ℚ
  count : Nat
  average : ℚ
  min : ℚ
  max : ℚ
  median : ℚ
  std_dev : ℝ

/-- Python `sorted` / ascending stable sort of rationals. -/
def sortedAsc (vs : List ℚ) : List ℚ :=
  sortOrd (fun a b => decide (a < b)) vs

/-- The shared median formula: both builders average the two middle
elements of the sorted values for even counts and take the middle one for
odd counts (`calculate_advanced_summary` explicitly, pandas
`Series.median` by definition). -/
def medianOf (vs : List ℚ) : ℚ :=
  let s := sortedAsc vs
  let n := vs.length
  if n % 2 = 0 then (s.getD (n / 2 - 1) 0 + s.getD (n / 2) 0) / 2
  else s.getD (n / 2) 0

/-- Running minimum over the remaining values (the `min(...)` fold in
`calculate_advanced_summary`; also `Series.min`). -/
def listMin (v : ℚ) (rest : List ℚ) : ℚ :=
  rest.foldl (fun a b => min a b) v

/-- Running maximum over the remaining values. -/
def listMax (v : ℚ) (rest : List ℚ) : ℚ :=
  rest.foldl (fun a b => max a b) v

/-- Population variance `sum((x - mean)**2 for x in values) / n`, the
quantity under the square root in `calculate_advanced_summary`. -/
def popVariance (vs : List ℚ) : ℚ :=
  let mean := vs.sum / vs.length
  (vs.map (fun x => (x - mean) ^ 2)).sum / vs.length

/-- Sample variance with `ddof=1`, the quantity under the square root in
pandas `Series.std()`: the squared deviations divided by `n - 1`.
(For a single element pandas yields NaN; this model value is never used
by a theorem at `n = 1`.) -/
def sampleVariance (vs : List ℚ) : ℚ :=
  let mean := vs.sum / vs.length
  (vs.map (fun x => (x - mean) ^ 2)).sum / ((vs.length : ℚ) - 1)

/-- `basic_stats` of `calculate_advanced_summary` as a function of the
valid numeric values of the summarized field in feature order: the loop
accumulates `total` with `+=` and folds `min`/`max`; with no valid value
the stats stay zero (`min`/`max` are reset to 0).  `std_dev` is the square
root of the population variance (`variance = sum((x-mean)**2)/n`). -/
noncomputable def layerBasicStats (vs : List ℚ) : BasicStats :=
  match vs with
  | [] => { total := 0, count := 0, average := 0, min := 0, max := 0,
            median := 0, std_dev := 0 }
  | v :: rest =>
      { total := (v :: rest).foldl (· + ·) 0
        count := (v :: rest).length
        average := (v :: rest).foldl (· + ·) 0 / (v :: rest).length
        min := listMin v rest
        max := listMax v rest
        median := medianOf (v :: rest)
        std_dev := Real.sqrt ((popVariance (v :: rest) : ℚ) : ℝ) }

/-- `basic_stats` of `_build_dataframe_summary` for a DataFrame whose
first numeric column holds exactly the given valid values (the dropna'd
series is the value list, and `len(df)` is its length — note the code
never updates `count` from the series, it keeps `int(len(df))`).
`std_dev` is `float(series.std())`: pandas' sample standard deviation
with `ddof=1`. -/
noncomputable def dfBasicStats (vs : List ℚ) : BasicStats :=
  match vs with
  | [] => { total := 0, count := vs.length, average := 0, min := 0, max := 0,
            median := 0, std_dev := 0 }
  | v :: rest =>
      { total := (v :: rest).sum
        count := (v :: rest).length
        average := (v :: rest).sum / (v :: rest).length
        min := listMin v rest
        max := listMax v rest
        median := medianOf (v :: rest)
        std_dev := Real.sqrt ((sampleVariance (v :: rest) : ℚ) : ℝ) }

end DataSummarizer

namespace PowerQuery

/-- A table row: association of column name to cell, where a `none` cell
is a pandas NA.  The value type `V` is abstract. -/
abbrev Row (V : Type) := List (String × Option V)

/-- A dataframe: ordered column names and rows. -/
structure Df (V : Type) where
  cols : List String
  rows : List (Row V)
deriving Repr, DecidableEq

/-- Cell of a row in a column: outer `none` when the column is absent. -/
def lookupCell {V : Type} (r : Row V) (c : String) : Option (Option V) :=
  (r.find? (fun p => p.1 == c)).map Prod.snd

/-- `PROTECTED_COLUMNS_DEFAULT`. -/
def protectedColumnsDefault : List String :=
  ["__feature_id", "__geometry_wkb", "__target_feature_id"]

/-- A selected filter payload (`ValueFilterDialog.selected_values`):
`none` is the `NULL_SENTINEL` behind the `(vazio)` entry, `some v` a
regular value. -/
abbrev FilterVal (V : Type) := Option V

/-- One column's mask for one cell in `_apply_filters`: the mask starts
all-True, `series.isin(allowed_values)` is AND-ed in only when some
regular value is selected, and `series.isna()` is OR-ed in when the
sentinel is among the selected values. -/
def colPass {V : Type} [BEq V] (values : List (FilterVal V)) (cell : Option V) : Bool :=
  let allowed := values.filterMap id
  let mask :=
    if allowed.isEmpty then true
    else
      match cell with
      | some v => allowed.contains v
      | none => false
  if values.contains none then mask || cell.isNone else mask

/-- `PowerQueryTable._apply_filters` applied to the transformed rows:
each active filter with a column present in the dataframe keeps the rows
passing its mask. -/
def applyFilters {V : Type} [BEq V] (filters : List (String × List (FilterVal V)))
    (rows : List (Row V)) : List (Row V) :=
  rows.filter (fun r =>
    filters.all (fun f =>
      match lookupCell r f.1 with
      | none => true
      | some cell => colPass f.2 cell))

/-- The claimed filter semantics (the spec sentence, for comparison):
a row passes a column filter exactly when its cell — NA standing for the
`(vazio)` sentinel — belongs to the selected set. -/
def applyFiltersClaim {V : Type} [BEq V] (filters : List (String × List (FilterVal V)))
    (rows : List (Row V)) : List (Row V) :=
  rows.filter (fun r =>
    filters.all (fun f =>
      match lookupCell r f.1 with
      | none => true
      | some cell => f.2.contains cell))

/-- `_drill_down`'s selection for a clicked cell value: the sentinel for
an NA cell, the value itself otherwise. -/
def drillDownSelection {V : Type} (value : Option V) : List (FilterVal V) :=
  match value with
  | none => [none]
  | some v => [some v]

/-- Ordered-dict update of the active filters. -/
def setFilter {V : Type} (fs : List (String × List (FilterVal V))) (c : String)
    (vs : List (FilterVal V)) : List (String × List (FilterVal V)) :=
  if fs.any (fun f => f.1 == c) then
    fs.map (fun f => if f.1 == c then (c, vs) else f)
  else
    fs ++ [(c, vs)]

/-- Removal of one column's filter (`_active_filters.pop(column, None)`). -/
def dropFilter {V : Type} (fs : List (String × List (FilterVal V))) (c : String) :
    List (String × List (FilterVal V)) :=
  fs.filter (fun f => f.1 != c)

/-- The distinct payloads offered by `ValueFilterDialog` for a column's
cells (`total_items`); an empty column yields the single sentinel entry. -/
def dialogPayloads {V : Type} [DecidableEq V] (cells : List (Option V)) :
    List (FilterVal V) :=
  let p := cells.dedup
  if p.isEmpty then [none] else p

/-- Cells of one column of a dataframe. -/
def columnCells {V : Type} (df : Df V) (c : String) : List (Option V) :=
  df.rows.map (fun r => (lookupCell r c).getD none)

/-- Widget state of `PowerQueryTable` (the dataframe attributes, the
active filters, the visible columns and the Qt model's copy). -/
structure PQState (V : Type) where
  protectedCols : List String
  base : Df V
  transformed : Df V
  filtered : Df V
  activeFilters : List (String × List (FilterVal V))
  visible : List String
  modelDf : Df V

/-- `_apply_dataframe(df, visible)`: resolve the visible columns, hand the
dataframe to the Qt model (a copy) and store the filtered copy. -/
def applyDataframe {V : Type} (s : PQState V) (df : Df V)
    (visible : Option (List String)) : PQState V :=
  let vis0 :=
    match visible with
    | some v => v
    | none => s.visible
  let vis :=
    if vis0.isEmpty then df.cols.filter (fun c => ¬ s.protectedCols.contains c)
    else vis0
  { s with
      modelDf := df
      visible := vis.filter (fun c => df.cols.contains c)
      filtered := df }

/-- `_set_transformed_df(df, visible, reset_filters)`: store the
transformed copy, clear or prune the active filters, and apply. -/
def setTransformedDf {V : Type} (s : PQState V) (df : Df V)
    (visible : Option (List String)) (resetFilters : Bool) : PQState V :=
  let s1 :=
    { s with
        transformed := df
        activeFilters :=
          if resetFilters then []
          else s.activeFilters.filter (fun f => df.cols.contains f.1) }
  applyDataframe s1 df
    (some (match visible with
           | some v => v
           | none => df.cols.filter (fun c => ¬ s1.protectedCols.contains c)))

/-- `set_dataframe(df, protected_columns)` (the public API): copies of
the caller's dataframe become base, transformed and filtered state and
the filters are cleared. -/
def set_dataframe {V : Type} (s : PQState V) (df : Df V)
    (protectedColumns : Option (List String)) : PQState V :=
  let prot := protectedColumns.getD protectedColumnsDefault
  let s1 :=
    { s with
        base := df
        transformed := df
        filtered := df
        activeFilters := []
        protectedCols := prot }
  setTransformedDf s1 df (some (df.cols.filter (fun c => ¬ prot.contains c))) true

/-- `_apply_filters` as a state operation: filter the transformed rows
and apply with the current visible columns. -/
def applyFiltersOp {V : Type} [BEq V] (s : PQState V) : PQState V :=
  applyDataframe s
    { cols := s.transformed.cols, rows := applyFilters s.activeFilters s.transformed.rows }
    (some s.visible)

/-- `_revert_to_base`. -/
def revertToBase {V : Type} (s : PQState V) : PQState V :=
  setTransformedDf s s.base
    (some (s.base.cols.filter (fun c => ¬ s.protectedCols.contains c))) true

/-- `_filter_values(column)` with the dialog returning `selected`:
an empty or complete selection removes the column's filter. -/
def filterValues {V : Type} [DecidableEq V] (s : PQState V) (column : String)
    (selected : List (FilterVal V)) : PQState V :=
  if ¬ s.transformed.cols.contains column then s
  else
    let total := (dialogPayloads (columnCells s.transformed column)).length
    let s1 :=
      if selected.isEmpty ∨ selected.length = total then
        { s with activeFilters := dropFilter s.activeFilters column }
      else
        { s with activeFilters := setFilter s.activeFilters column selected }
    applyFiltersOp s1

/-- `_drill_down(column, value)` ("Manter apenas este valor"). -/
def drillDown {V : Type} [DecidableEq V] (s : PQState V) (column : String)
    (value : Option V) : PQState V :=
  if ¬ s.transformed.cols.contains column then s
  else
    applyFiltersOp
      { s with activeFilters := setFilter s.activeFilters column (drillDownSelection value) }

/-- `_remove_filter(column)` (the badge's close button). -/
def removeFilterOp {V : Type} [DecidableEq V] (s : PQState V) (column : String) : PQState V :=
  if s.activeFilters.any (fun f => f.1 == column) then
    applyFiltersOp { s with activeFilters := dropFilter s.activeFilters column }
  else s

/-- `_clear_filters`. -/
def clearFilters {V : Type} [DecidableEq V] (s : PQState V) : PQState V :=
  if s.activeFilters.isEmpty then applyDataframe s s.transformed (some s.visible)
  else applyFiltersOp { s with activeFilters := [] }

/-- `_refresh_preview`. -/
def refreshPreview {V : Type} (s : PQState V) : PQState V :=
  applyDataframe s s.transformed (some s.visible)

/-- `_choose_columns` with the dialog returning `selected`. -/
def chooseColumns {V : Type} (s : PQState V) (selected : List String) : PQState V :=
  if selected.isEmpty then s
  else applyDataframe s s.filtered
    (some (selected.filter (fun c => s.transformed.cols.contains c)))

/-- Drop one column from a dataframe (`df.drop(columns=[c])`). -/
def dfDropColumn {V : Type} (df : Df V) (c : String) : Df V :=
  { cols := df.cols.filter (fun x => x != c)
    rows := df.rows.map (fun r => r.filter (fun p => p.1 != c)) }

/-- `_remove_column(column)`. -/
def removeColumn {V : Type} [DecidableEq V] (s : PQState V) (column : String) : PQState V :=
  if ¬ s.transformed.cols.contains column ∨ s.protectedCols.contains column then s
  else
    setTransformedDf s (dfDropColumn s.transformed column)
      (some (s.visible.filter (fun c => c != column))) true

/-- `_unique_column_name(base)`: append `_2`, `_3`, … until unused; the
fuel bounds the loop (it never runs out: at most `existing.length`
candidates can collide). -/
def uniqueColumnNameAux (existing : List String) (base : String) :
    Nat → Nat → String
  | 0, counter => base ++ "_" ++ toString counter
  | fuel + 1, counter =>
      let candidate := if counter = 1 then base else base ++ "_" ++ toString counter
      if existing.contains candidate then
        uniqueColumnNameAux existing base fuel (counter + 1)
      else candidate

/-- `_unique_column_name`. -/
def uniqueColumnName (existing : List String) (base : String) : String :=
  uniqueColumnNameAux existing base (existing.length + 1) 1

/-- `_duplicate_column(column)`: append a `<column>_copia` copy and show
it right after the original. -/
def duplicateColumn {V : Type} [DecidableEq V] (s : PQState V) (column : String) : PQState V :=
  if ¬ s.transformed.cols.contains column then s
  else
    let newName := uniqueColumnName s.transformed.cols (column ++ "_copia")
    let df : Df V :=
      { cols := s.transformed.cols ++ [newName]
        rows := s.transformed.rows.map (fun r =>
          r ++ [(newName, (lookupCell r column).getD none)]) }
    let vis :=
      if s.visible.contains column then
        (s.visible.takeWhile (fun c => c != column)) ++ [column, newName] ++
          ((s.visible.dropWhile (fun c => c != column)).drop 1)
      else s.visible ++ [newName]
    setTransformedDf s df (some vis) false

/-- Keep the first row for each distinct key in the column
(`drop_duplicates(subset=[column])`). -/
def dedupRowsBy {V : Type} [DecidableEq V] (rows : List (Row V)) (c : String) :
    List (Row V) :=
  (rows.foldl
    (fun acc r =>
      let key := (lookupCell r c).getD none
      if acc.2.contains key then acc else (acc.1 ++ [r], key :: acc.2))
    (([], []) : List (Row V) × List (Option V))).1

/-- `_remove_duplicates(column)`. -/
def removeDuplicates {V : Type} [DecidableEq V] (s : PQState V) (column : String) : PQState V :=
  if ¬ s.transformed.cols.contains column then s
  else
    setTransformedDf s
      { cols := s.transformed.cols, rows := dedupRowsBy s.transformed.rows column }
      (some s.visible) true

/-- `_replace_values(column)` with dialog values `oldv → newv`. -/
def replaceValues {V : Type} [DecidableEq V] (s : PQState V) (column : String)
    (oldv newv : V) : PQState V :=
  if ¬ s.transformed.cols.contains column then s
  else
    setTransformedDf s
      { cols := s.transformed.cols
        rows := s.transformed.rows.map (fun r =>
          r.map (fun p =>
            if p.1 = column ∧ p.2 = some oldv then (p.1, some newv) else p)) }
      (some s.visible) false

/-- `PowerQueryModel.sort`: re-sorts only the model's own copy of the
dataframe; the comparator abstracts the pandas `sort_values` key. -/
def sortModel {V : Type} (s : PQState V) (cmp : Row V → Row V → Bool) : PQState V :=
  { s with modelDf := { s.modelDf with rows := sortOrd cmp s.modelDf.rows } }

/-- The user operations quantified over by the revert claim: every
transformation, filter and sort the widget offers in this model. -/
inductive Op (V : Type) where
  | filterValues (column : String) (selected : List (FilterVal V))
  | drillDown (column : String) (value : Option V)
  | removeFilterBadge (column : String)
  | clearFilters
  | refreshPreview
  | chooseColumns (selected : List String)
  | removeColumn (column : String)
  | duplicateColumn (column : String)
  | removeDuplicates (column : String)
  | replaceValues (column : String) (oldv newv : V)
  | sortModel (cmp : Row V → Row V → Bool)
  | revert

/-- One user operation. -/
def step {V : Type} [DecidableEq V] (s : PQState V) : Op V → PQState V
  | .filterValues c sel => filterValues s c sel
  | .drillDown c v => drillDown s c v
  | .removeFilterBadge c => removeFilterOp s c
  | .clearFilters => clearFilters s
  | .refreshPreview => refreshPreview s
  | .chooseColumns sel => chooseColumns s sel
  | .removeColumn c => removeColumn s c
  | .duplicateColumn c => duplicateColumn s c
  | .removeDuplicates c => removeDuplicates s c
  | .replaceValues c a b => replaceValues s c a b
  | .sortModel cmp => sortModel s cmp
  | .revert => revertToBase s

/-- The widget's initial state (`__init__`). -/
def initState (V : Type) : PQState V :=
  { protectedCols := protectedColumnsDefault
    base := { cols := [], rows := [] }
    transformed := { cols := [], rows := [] }
    filtered := { cols := [], rows := [] }
    activeFilters := []
    visible := []
    modelDf := { cols := [], rows := [] } }

end PowerQuery

namespace PivotTable

/-- The entries of `SUPPORTED_AGGREGATORS` in `pivot_table_widget.py`. -/
inductive AggFunc where
  | sum
  | mean
  | count
  | max
  | min
  | std
deriving DecidableEq, Repr

/-- One record of the filtered dataframe, projected onto the chosen
row field, column field and value field.  Keys are modelled as strings
(pandas group keys; NA keys are outside this model), the metric as an
optional exact rational (`none` = NaN). -/
structure DataRow where
  rowKey : String
  colKey : String
  value : Option ℚ
deriving DecidableEq, Repr

/-- A cell of a two-dimensional pivot. -/
structure PivotCell where
  rowKey : String
  colKey : String
  value : Option ℚ
deriving DecidableEq, Repr

/-- A row of the one-dimensional (row-field only) pivot: the group key,
the aggregated value, and the `% do total` entry when that column was
appended. -/
structure GroupRow where
  key : String
  value : Option ℚ
  pct : Option ℚ
deriving DecidableEq, Repr

/-- `round(x, 2)` on exact rationals: round half to even at two decimal
places (both `_compute_pivot` sides use the same rounding, so the model's
choice of exact half-even rounding cancels in the comparison). -/
def round2 (x : ℚ) : ℚ :=
  let f : ℤ := ⌊x * 100⌋
  let r : ℚ := x * 100 - f
  let n : ℤ :=
    if r < 1 / 2 then f
    else if 1 / 2 < r then f + 1
    else if f % 2 = 0 then f else f + 1
  (n : ℚ) / 100

/-- Distinct keys in ascending order (pandas group/pivot key order). -/
def sortedKeys (ks : List String) : List String :=
  sortOrd (fun a b => decide (a < b)) ks.dedup

/-- Metric values of the group with both keys fixed. -/
def groupValues (df : List DataRow) (r c : String) : List (Option ℚ) :=
  (df.filter (fun d => d.rowKey == r && d.colKey == c)).map (fun d => d.value)

/-- `pd.pivot_table(df, index=row, columns=col, values=metric,
aggfunc=f, dropna=False)`: the grid over all distinct row and column
keys, each cell aggregating its group's metric values (an empty group
aggregates to NaN, kept because of `dropna=False`).  `aggFn` abstracts
the pandas aggregation callable, shared by code and claim. -/
def pivotTable (aggFn : List (Option ℚ) → Option ℚ) (df : List DataRow) :
    List PivotCell :=
  (sortedKeys (df.map (fun d => d.rowKey))).flatMap (fun r =>
    (sortedKeys (df.map (fun d => d.colKey))).map (fun c =>
      { rowKey := r, colKey := c, value := aggFn (groupValues df r c) }))

/-- `df.groupby(row_field)[metric].agg(agg_func).reset_index()`: one pair
per distinct key in ascending key order. -/
def groupbyAgg (aggFn : List (Option ℚ) → Option ℚ) (df : List DataRow) :
    List (String × Option ℚ) :=
  (sortedKeys (df.map (fun d => d.rowKey))).map (fun k =>
    (k, aggFn ((df.filter (fun d => d.rowKey == k)).map (fun d => d.value))))

/-- Descending comparison of optional metric values, NaN last
(`sort_values(ascending=False)`). -/
def cmpValDesc (x y : Option ℚ) : Bool :=
  match x, y with
  | some a, some b => decide (b < a)
  | some _, none => true
  | none, _ => false

/-- Rounding of the aggregated column (`pivot[header].round(2)`),
applied for every aggregation but count. -/
def roundAgg (tag : AggFunc) (ps : List (String × Option ℚ)) :
    List (String × Option ℚ) :=
  if tag ≠ AggFunc.count then ps.map (fun p => (p.1, p.2.map round2)) else ps

/-- The `% do total` cell for one aggregated value
(`(pivot[header] / total * 100).round(2)`). -/
def pctCell (total : ℚ) (v : Option ℚ) : Option ℚ :=
  v.map (fun x => round2 (x / total * 100))

/-- `total = pivot[header].sum()` (pandas sum skips NaN). -/
def aggTotal (ps : List (String × Option ℚ)) : ℚ :=
  (ps.filterMap (fun p => p.2)).sum

/-- The row-field-only branch of `_compute_pivot`: group, round for
non-count, append `% do total` for sum/count with nonzero total, then
sort descending by the aggregated value. -/
def computeRowOnly (tag : AggFunc) (aggFn : List (Option ℚ) → Option ℚ)
    (df : List DataRow) : List GroupRow :=
  sortOrd (fun a b => cmpValDesc a.value b.value)
    (if (tag = AggFunc.sum ∨ tag = AggFunc.count) ∧
        aggTotal (roundAgg tag (groupbyAgg aggFn df)) ≠ 0 then
      (roundAgg tag (groupbyAgg aggFn df)).map (fun p =>
        { key := p.1, value := p.2
          pct := pctCell (aggTotal (roundAgg tag (groupbyAgg aggFn df))) p.2 })
    else
      (roundAgg tag (groupbyAgg aggFn df)).map (fun p =>
        { key := p.1, value := p.2, pct := none }))

/-- The both-fields branch of `_compute_pivot`: the pandas pivot table,
with non-count numeric cells rounded to two decimals by the `applymap`. -/
def computeBoth (tag : AggFunc) (aggFn : List (Option ℚ) → Option ℚ)
    (df : List DataRow) : List PivotCell :=
  if tag ≠ AggFunc.count then
    (pivotTable aggFn df).map (fun c => { c with value := c.value.map round2 })
  else pivotTable aggFn df

/-- The results `_compute_pivot` can leave in `self.pivot_df`. -/
inductive PivotResult where
  | empty
  | scalar (label : String) (value : Option ℚ)
  | grid (cells : List PivotCell)
  | rows (rws : List GroupRow)
deriving Repr

/-- `_compute_pivot` (`pivot_table_widget.py`): empty input gives an
empty pivot; with no row and no column field a single scalar; with a
column field the pivot grid; with only a row field the sorted group
rows.  (With no row field but a column field the code calls
`pivot_table` with `index=None`; that configuration is outside the
claim and modelled as the grid of the same aggregation.) -/
def computePivot (tag : AggFunc) (aggFn : List (Option ℚ) → Option ℚ)
    (metric : String) (rowField colField : Option String)
    (df : List DataRow) : PivotResult :=
  if df.isEmpty then .empty
  else
    match rowField, colField with
    | none, none =>
        .scalar metric
          (if tag = AggFunc.count then
            some (((df.map (fun d => d.value)).filterMap id).length : ℚ)
          else aggFn (df.map (fun d => d.value)))
    | _, some _ => .grid (computeBoth tag aggFn df)
    | some _, none => .rows (computeRowOnly tag aggFn df)

/-- The claim's description of the both-fields view: pandas pivot_table
of the filtered data with the chosen aggregation, non-count values
rounded to 2 decimals. -/
def pivotSpecBoth (tag : AggFunc) (aggFn : List (Option ℚ) → Option ℚ)
    (df : List DataRow) : List PivotCell :=
  if tag ≠ AggFunc.count then
    (pivotTable aggFn df).map (fun c => { c with value := c.value.map round2 })
  else pivotTable aggFn df

/-- The claim's description of the row-field-only view: the per-group
aggregate sorted in descending order of the aggregated value, with a
`% do total` column equal to `value/total*100` rounded to 2 decimals
appended for sum and count aggregations when the total is nonzero. -/
def pivotSpecRowOnly (tag : AggFunc) (aggFn : List (Option ℚ) → Option ℚ)
    (df : List DataRow) : List GroupRow :=
  if (tag = AggFunc.sum ∨ tag = AggFunc.count) ∧
      aggTotal (sortOrd (fun a b => cmpValDesc a.2 b.2)
        (roundAgg tag (groupbyAgg aggFn df))) ≠ 0 then
    (sortOrd (fun a b => cmpValDesc a.2 b.2)
        (roundAgg tag (groupbyAgg aggFn df))).map (fun p =>
      { key := p.1, value := p.2
        pct := pctCell (aggTotal (sortOrd (fun a b => cmpValDesc a.2 b.2)
          (roundAgg tag (groupbyAgg aggFn df)))) p.2 })
  else
    (sortOrd (fun a b => cmpValDesc a.2 b.2)
        (roundAgg tag (groupbyAgg aggFn df))).map (fun p =>
      { key := p.1, value := p.2, pct := none })

end PivotTable

namespace CloudSession

/-- UTF-8 bytes of one unicode scalar value (`str.encode("utf-8")`, per
character). -/
def utf8EncodeChar (c : Char) : List Nat :=
  let n := c.toNat
  if n < 0x80 then [n]
  else if n < 0x800 then [0xC0 + n / 0x40, 0x80 + n % 0x40]
  else if n < 0x10000 then
    [0xE0 + n / 0x1000, 0x80 + n / 0x40 % 0x40, 0x80 + n % 0x40]
  else
    [0xF0 + n / 0x40000, 0x80 + n / 0x1000 % 0x40, 0x80 + n / 0x40 % 0x40,
     0x80 + n % 0x40]

/-- `str.encode("utf-8")`. -/
def utf8Encode (cs : List Char) : List Nat :=
  cs.flatMap utf8EncodeChar

/-- A UTF-8 continuation byte. -/
def isCont (b : Nat) : Bool :=
  0x80 ≤ b ∧ b < 0xC0

/-- Decode the continuation byte of a two-byte sequence. -/
def decodeTail1 (b : Nat) : List Nat → Option (Char × List Nat)
  | b2 :: rest2 =>
      if isCont b2 then
        some (Char.ofNat ((b - 0xC0) * 0x40 + (b2 - 0x80)), rest2)
      else none
  | [] => none

/-- Decode the continuation bytes of a three-byte sequence. -/
def decodeTail2 (b : Nat) : List Nat → Option (Char × List Nat)
  | b2 :: b3 :: rest3 =>
      if isCont b2 ∧ isCont b3 then
        some (Char.ofNat ((b - 0xE0) * 0x1000 + (b2 - 0x80) * 0x40 + (b3 - 0x80)), rest3)
      else none
  | _ => none

/-- Decode the continuation bytes of a four-byte sequence. -/
def decodeTail3 (b : Nat) : List Nat → Option (Char × List Nat)
  | b2 :: b3 :: b4 :: rest4 =>
      if isCont b2 ∧ isCont b3 ∧ isCont b4 then
        some (Char.ofNat ((b - 0xF0) * 0x40000 + (b2 - 0x80) * 0x1000 +
          (b3 - 0x80) * 0x40 + (b4 - 0x80)), rest4)
      else none
  | _ => none

/-- Decode one UTF-8 scalar value from the front of a byte list; `none`
models a `UnicodeDecodeError` (CPython's overlong/surrogate rejection is
omitted: the theorems only decode encoder output). -/
def utf8DecodeOne : List Nat → Option (Char × List Nat)
  | [] => none
  | b :: rest =>
      if b < 0x80 then some (Char.ofNat b, rest)
      else if 0xC0 ≤ b ∧ b < 0xE0 then decodeTail1 b rest
      else if 0xE0 ≤ b ∧ b < 0xF0 then decodeTail2 b rest
      else if 0xF0 ≤ b ∧ b < 0xF8 then decodeTail3 b rest
      else none

/-- Decode a full byte list, consuming one scalar per fuel unit (a fuel
of the byte count always suffices). -/
def utf8DecodeAux : Nat → List Nat → Option (List Char)
  | _, [] => some []
  | 0, _ :: _ => none
  | fuel + 1, b :: rest =>
      match utf8DecodeOne (b :: rest) with
      | none => none
      | some (c, rest2) =>
          match utf8DecodeAux fuel rest2 with
          | some cs => some (c :: cs)
          | none => none

/-- `bytes.decode("utf-8")`. -/
def utf8Decode (bs : List Nat) : Option (List Char) :=
  utf8DecodeAux bs.length bs

/-- The urlsafe base64 alphabet (`base64.urlsafe_b64encode`). -/
def b64Alphabet : List Char :=
  "ABCDEFGHIJKLMNOPQRSTUVWXYZabcdefghijklmnopqrstuvwxyz0123456789-_".toList

/-- Sextet to character. -/
def b64Char (n : Nat) : Char :=
  b64Alphabet.getD n 'A'

/-- Character back to sextet. -/
def b64DecodeChar (c : Char) : Option Nat :=
  b64Alphabet.findIdx? (fun d => d = c)

/-- `base64.urlsafe_b64encode`: three bytes to four characters, with
`=` padding for the final partial group. -/
def b64Encode : List Nat → List Char
  | [] => []
  | [a] => [b64Char (a / 4), b64Char (a % 4 * 16), '=', '=']
  | [a, b] =>
      [b64Char (a / 4), b64Char (a % 4 * 16 + b / 16), b64Char (b % 16 * 4), '=']
  | a :: b :: c :: rest =>
      b64Char (a / 4) :: b64Char (a % 4 * 16 + b / 16) ::
        b64Char (b % 16 * 4 + c / 64) :: b64Char (c % 64) :: b64Encode rest

/-- `base64.urlsafe_b64decode` on properly padded input; `none` models
`binascii.Error` (caught by `_deobfuscate_token`).  Like CPython, the
unused padding bits are not checked. -/
def b64Decode : List Char → Option (List Nat)
  | [] => some []
  | c1 :: c2 :: c3 :: c4 :: rest =>
      match b64DecodeChar c1, b64DecodeChar c2 with
      | some n1, some n2 =>
          if c3 = '=' then
            if c4 = '=' ∧ rest = [] then some [n1 * 4 + n2 / 16] else none
          else
            match b64DecodeChar c3 with
            | some n3 =>
                if c4 = '=' then
                  if rest = [] then
                    some [n1 * 4 + n2 / 16, n2 % 16 * 16 + n3 / 4]
                  else none
                else
                  match b64DecodeChar c4, b64Decode rest with
                  | some n4, some bs =>
                      some ((n1 * 4 + n2 / 16) :: (n2 % 16 * 16 + n3 / 4) ::
                        (n3 % 4 * 64 + n4) :: bs)
                  | _, _ => none
            | none => none
      | _, _ => none
  | _ => none

/-- `cloud_session._obfuscate_token`, with a Python `str` as its sequence
of code points: the empty token maps to the empty string, any other token
to `"obf:"` followed by the urlsafe base64 of the UTF-8 bytes of the
reversed token (`token[::-1].encode("utf-8")`). -/
def obfuscate_token (token : List Char) : List Char :=
  if token.isEmpty then []
  else "obf:".toList ++ b64Encode (utf8Encode token.reverse)

/-- `cloud_session._deobfuscate_token`: empty and non-`obf:`-prefixed
strings come back unchanged; otherwise the payload after `obf:` is
base64-decoded, UTF-8-decoded and reversed, any failure returning the
raw string unchanged. -/
def deobfuscate_token (raw : List Char) : List Char :=
  if raw.isEmpty then []
  else if ¬ "obf:".toList.isPrefixOf raw then raw
  else
    match b64Decode (raw.drop 4) with
    | none => raw
    | some bytes =>
        match utf8Decode bytes with
        | none => raw
        | some cs => cs.reverse

end CloudSession

/-- C3 counterexample: with an empty user table and the syntactically
invalid email `"x"`, no user with that email exists, yet `POST /login`
answers 422 (pydantic validation), not 401 — so the claimed `iff` fails. -/
theorem c3_login_401_iff_counterexample :
    CloudApi.badCredentials (fun _ _ => true) [] "x" "pw" ∧
    ∀ d, CloudApi.login (fun _ _ => true) 3600 0 [] "x" "pw" ≠
      .error ⟨401, d⟩ := by
  constructor
  · exact Or.inl rfl
  · intro d h
    simp [CloudApi.login, CloudApi.emailValid, CloudApi.pyIsSpace] at h

/-- C3 (amended to requests that pass the schema's email validation):
for every payload whose email matches the validation regex, `POST /login`
fails with HTTP 401 exactly when no user with that email exists or the
password does not verify against the stored hash; otherwise it returns a
token whose JWT subject is the user's id and `expires_in = JWT_EXPIRES`. -/
theorem c3_login_401_iff_bad_credentials (verify : String → String → Bool)
    (jwtExpires now : Nat) (users : List CloudApi.User) (email password : String)
    (hvalid : CloudApi.emailValid email = true) :
    ((∃ d, CloudApi.login verify jwtExpires now users email password =
        .error ⟨401, d⟩) ↔
      CloudApi.badCredentials verify users email password) ∧
    (∀ u, users.find? (fun u => u.email == email) = some u →
      verify password u.password_hash = true →
      CloudApi.login verify jwtExpires now users email password =
        .ok { access_token := { sub := toString u.id, exp := now + jwtExpires }
              token_type := "bearer"
              expires_in := jwtExpires }) := by
  constructor
  · constructor
    · rintro ⟨d, hd⟩
      unfold CloudApi.login at hd
      rw [hvalid] at hd
      simp only [Bool.not_true, Bool.false_eq_true, if_false] at hd
      rcases hfind : users.find? (fun u => u.email == email) with _ | u
      · exact Or.inl hfind
      · refine Or.inr ⟨u, hfind, ?_⟩
        unfold CloudApi.authenticate_user at hd
        rw [hfind] at hd
        by_cases hv : verify password u.password_hash
        · simp [hv] at hd
        · simpa using hv
    · intro hbad
      refine ⟨"Invalid email or password", ?_⟩
      rcases hbad with hnone | ⟨u, hfind, hv⟩
      · simp [CloudApi.login, CloudApi.authenticate_user, hvalid, hnone]
      · simp [CloudApi.login, CloudApi.authenticate_user, hvalid, hfind, hv]
  · intro u hfind hv
    simp [CloudApi.login, CloudApi.authenticate_user, hvalid, hfind, hv,
      CloudApi.create_access_token]

/-- C3 witness: concrete run of the amended theorem — the valid email
`a@b.c` with a matching password yields the token for user 7, and with no
matching user the endpoint answers 401. -/
theorem c3_login_witness :
    CloudApi.login (fun p h => p == h) 3600 100
        [{ id := 7, email := "a@b.c", password_hash := "secret", role := "user" }]
        "a@b.c" "secret" =
      .ok { access_token := { sub := "7", exp := 3700 }
            token_type := "bearer"
            expires_in := 3600 } := by
  exact (c3_login_401_iff_bad_credentials (fun p h => p == h) 3600 100
      [{ id := 7, email := "a@b.c", password_hash := "secret", role := "user" }]
      "a@b.c" "secret" (by decide)).2
    { id := 7, email := "a@b.c", password_hash := "secret", role := "user" }
    (by decide) (by decide)

/-- C1: the claim's 201/403/400 behaviour of `POST /admin/create-user` is
unreachable: `app/admin.py` imports `get_password_hash` from `app.auth`,
but `app.auth` binds no such name (it defines `hash_password`), so importing
the admin module raises `ImportError` and the endpoint never loads. -/
theorem c1_create_user_import_unresolvable :
    CloudApi.adminAuthImportsResolve = false ∧
    CloudApi.authModuleNames.contains "hash_password" = true ∧
    CloudApi.authModuleNames.contains "get_password_hash" = false := by
  decide

/-- C4: a failing `POST /admin/upload-layer-gpkg` request always ends with
the transaction rolled back and the uploaded file removed — no layer row
and no orphan file remain — and each failure cause named by the claim
(no geometry columns, undeterminable SRID with no EPSG given, an EPSG
contradicting the file's SRID, uniqueness violation at commit) does make
the request fail. -/
theorem c4_upload_failure_rollback_cleanup
    (current_user : CloudApi.User) (filename name description group_name : Option String)
    (epsg : Option Int) (gpkg : CloudApi.GpkgFile) (relativeUri : String)
    (layersAtCheck layersAtCommit : List CloudApi.Layer) (nextId : Nat) :
    (∀ e, (CloudApi.upload_layer_gpkg current_user filename name description group_name
          epsg gpkg relativeUri layersAtCheck layersAtCommit nextId).response = .error e →
        CloudApi.upload_layer_gpkg current_user filename name description group_name
          epsg gpkg relativeUri layersAtCheck layersAtCommit nextId =
          { response := .error e, fileOnDisk := false, layers := layersAtCommit }) ∧
    (CloudApi.uploadWriteReached current_user filename name layersAtCheck = true →
      (gpkg.geometryRows = [] ∨
        (∃ m, CloudApi.extract_gpkg_metadata gpkg = .ok m ∧ m.srid = none ∧ epsg = none) ∨
        (∃ m d e, CloudApi.extract_gpkg_metadata gpkg = .ok m ∧ m.srid = some d ∧
          epsg = some e ∧ d ≠ e) ∨
        layersAtCommit.any (fun l =>
          l.name == CloudApi.uploadDisplayName filename name && l.provider == "gpkg" &&
            l.created_by_user_id == some current_user.id) = true) →
      ∃ err, (CloudApi.upload_layer_gpkg current_user filename name description group_name
          epsg gpkg relativeUri layersAtCheck layersAtCommit nextId).response =
            .error err) := by
  constructor
  · intro e he
    unfold CloudApi.upload_layer_gpkg at he ⊢
    repeat' split at he <;> simp_all
  · intro hreach hcause
    unfold CloudApi.uploadWriteReached at hreach
    simp only [Bool.and_eq_true, Bool.not_eq_true'] at hreach
    obtain ⟨⟨hadmin, hext⟩, hpre⟩ := hreach
    have hbody : ∃ err, CloudApi.upload_try_body current_user
        (CloudApi.uploadDisplayName filename name) description group_name epsg gpkg
        relativeUri layersAtCommit nextId = .error err := by
      unfold CloudApi.upload_try_body
      rcases hcause with hrows | ⟨m, hm, hsrid, hepsg⟩ | ⟨m, d, ev, hm, hsrid, hepsg, hne⟩ | hconf
      · unfold CloudApi.extract_gpkg_metadata
        rw [hrows]
        simp
      · rw [hm]
        simp [hsrid, hepsg]
      · rw [hm]
        simp only [hsrid, hepsg]
        refine ⟨⟨400, "O EPSG informado nao corresponde ao SRID do arquivo GPKG."⟩, ?_⟩
        have hcond : ¬ (some d = none ∧ some ev = (none : Option Int)) := by simp
        rw [if_neg hcond]
        simp [bne_iff_ne, hne]
      · rcases hx : CloudApi.extract_gpkg_metadata gpkg with err | m
        · exact ⟨err, by simp [hx]⟩
        · simp only [hx]
          repeat' split <;> first | exact ⟨_, rfl⟩ | simp_all
    obtain ⟨err, herr⟩ := hbody
    refine ⟨err, ?_⟩
    unfold CloudApi.upload_layer_gpkg
    simp only [hadmin, hext, hpre, Bool.not_true, Bool.false_eq_true, not_false_eq_true,
      if_false, if_true, Bool.not_false, not_true_eq_false]
    rw [herr]

/-- C4 witness: a concrete upload by an admin whose GPKG has no
determinable SRID and no EPSG form field fails with 400, leaving the file
deleted and the layer table unchanged. -/
theorem c4_upload_witness :
    CloudApi.upload_layer_gpkg CloudApi.exAdmin (some "r.gpkg") none none none none
        CloudApi.exGpkgNoSrid "gpkg/2026/10/12/x_r.gpkg" [] [] 1 =
      { response := .error ⟨400,
          "Nao foi possivel determinar o SRID do arquivo GPKG. Informe um EPSG valido."⟩,
        fileOnDisk := false, layers := [] } :=
  (c4_upload_failure_rollback_cleanup CloudApi.exAdmin (some "r.gpkg") none none none
      none CloudApi.exGpkgNoSrid "gpkg/2026/10/12/x_r.gpkg" [] [] 1).1
    ⟨400, "Nao foi possivel determinar o SRID do arquivo GPKG. Informe um EPSG valido."⟩
    (by rfl)

/-- C2: the GPKG download endpoint never serves a file outside
`UPLOAD_DIR`: a successful response's resolved path lies under the
resolved upload directory and is an existing regular file; when the
stored uri resolves outside the upload directory the endpoint answers
400, and 404 when the resolved path is not an existing regular file. -/
theorem c2_download_only_serves_inside_upload_dir
    (uploadDir : String) (existingFiles : List (List String))
    (layers : List CloudApi.Layer) (layer_id : Nat) (user : Option CloudApi.User) :
    (∀ p, CloudApi.download_layer_gpkg uploadDir existingFiles layers layer_id user = .ok p →
        (CloudApi.resolveComponents (CloudApi.splitSlash uploadDir)).isPrefixOf p = true ∧
          existingFiles.contains p = true) ∧
    (∀ layer, layers.find? (fun l => l.id == layer_id) = some layer →
      user.isSome = true →
      CloudApi.pyLower layer.provider = "gpkg" →
      layer.uri.getD "" ≠ "" →
      ((CloudApi.resolveComponents (CloudApi.splitSlash uploadDir)).isPrefixOf
          (CloudApi.resolveComponents (CloudApi.pathJoin (CloudApi.splitSlash uploadDir)
            (layer.uri.getD ""))) = false →
        CloudApi.download_layer_gpkg uploadDir existingFiles layers layer_id user =
          .error ⟨400, "Caminho do arquivo invalido."⟩) ∧
      (existingFiles.contains (CloudApi.resolveComponents (CloudApi.pathJoin
            (CloudApi.splitSlash uploadDir) (layer.uri.getD ""))) = false →
        (CloudApi.resolveComponents (CloudApi.splitSlash uploadDir)).isPrefixOf
          (CloudApi.resolveComponents (CloudApi.pathJoin (CloudApi.splitSlash uploadDir)
            (layer.uri.getD ""))) = true →
        CloudApi.download_layer_gpkg uploadDir existingFiles layers layer_id user =
          .error ⟨404, "Arquivo GPKG nao encontrado."⟩)) := by
  constructor
  · intro p hp
    unfold CloudApi.download_layer_gpkg at hp
    rcases user with _ | u
    · simp at hp
    · rcases hfind : layers.find? (fun l => l.id == layer_id) with _ | layer
      · rw [hfind] at hp
        simp at hp
      · rw [hfind] at hp
        repeat' split at hp
        all_goals try simp_all
  · intro layer hfind huser hprov huri
    rcases user with _ | u
    · simp at huser
    · constructor
      · intro hout
        unfold CloudApi.download_layer_gpkg
        rw [hfind]
        simp [hprov, huri, hout]
      · intro hmiss hin
        unfold CloudApi.download_layer_gpkg
        rw [hfind]
        simp [hprov, huri, hin]
        simpa using hmiss

/-- C2 witness: a stored uri `../../etc/passwd` resolves outside
`/data/gpkg` and the endpoint answers 400 instead of serving it. -/
theorem c2_download_witness :
    CloudApi.download_layer_gpkg "/data/gpkg" [] [CloudApi.exTraversalLayer] 1
        (some CloudApi.exPlainUser) =
      .error ⟨400, "Caminho do arquivo invalido."⟩ :=
  ((c2_download_only_serves_inside_upload_dir "/data/gpkg" []
      [CloudApi.exTraversalLayer] 1 (some CloudApi.exPlainUser)).2
    CloudApi.exTraversalLayer (by decide) (by decide) (by decide) (by decide)).1
    (by decide)

/-- C5: serialization does not succeed for the layers the GPKG upload
endpoint creates.  A concrete successful upload stores `schema = NULL`
(the endpoint sets `schema=None`), `LayerOut` requires a non-null string
`schema`, so pydantic validation fails — both the upload's own
`response_model=LayerOut` serialization and `GET /layers` raise, giving a
500 instead of the claimed listing. -/
theorem c5_upload_created_layer_fails_serialization :
    (CloudApi.upload_layer_gpkg CloudApi.exAdmin (some "roads.gpkg") none none none
        none CloudApi.exGpkgRoads "gpkg/2026/10/12/u_roads.gpkg" [] [] 1).response =
      .ok CloudApi.exRoadsLayer ∧
    CloudApi.exRoadsLayer.schema = none ∧
    CloudApi.serializeLayerOut CloudApi.exRoadsLayer = none ∧
    CloudApi.list_layers [CloudApi.exRoadsLayer] = none := by
  refine ⟨rfl, rfl, rfl, rfl⟩

/-- C6 counterexample: on the valid values `[0, 2]` the two summary
builders disagree — `calculate_advanced_summary` divides the squared
deviations by `n` (population, std 1) while `_build_dataframe_summary`
uses pandas `Series.std()` with `ddof=1` (sample, std √2). -/
theorem c6_summary_builders_counterexample :
    DataSummarizer.layerBasicStats [0, 2] ≠ DataSummarizer.dfBasicStats [0, 2] := by
  intro h
  have hs := congrArg DataSummarizer.BasicStats.std_dev h
  simp only [DataSummarizer.layerBasicStats, DataSummarizer.dfBasicStats] at hs
  have h1 : DataSummarizer.popVariance [0, 2] = 1 := by
    norm_num [DataSummarizer.popVariance, List.sum_cons, List.sum_nil, List.map]
  have h2 : DataSummarizer.sampleVariance [0, 2] = 2 := by
    norm_num [DataSummarizer.sampleVariance, List.sum_cons, List.sum_nil, List.map]
  rw [h1, h2] at hs
  rw [Real.sqrt_inj (by norm_num) (by norm_num)] at hs
  norm_num at hs

/-- C6 (amended): for every nonempty collection of valid numeric values
the two summary builders agree on total, count, average, min, max and
median; only the std_dev differs (population vs sample variance). -/
theorem c6_summary_builders_agree_except_std (vs : List ℚ) (h : vs ≠ []) :
    (DataSummarizer.layerBasicStats vs).total = (DataSummarizer.dfBasicStats vs).total ∧
    (DataSummarizer.layerBasicStats vs).count = (DataSummarizer.dfBasicStats vs).count ∧
    (DataSummarizer.layerBasicStats vs).average = (DataSummarizer.dfBasicStats vs).average ∧
    (DataSummarizer.layerBasicStats vs).min = (DataSummarizer.dfBasicStats vs).min ∧
    (DataSummarizer.layerBasicStats vs).max = (DataSummarizer.dfBasicStats vs).max ∧
    (DataSummarizer.layerBasicStats vs).median = (DataSummarizer.dfBasicStats vs).median := by
  match vs with
  | [] => exact absurd rfl h
  | v :: rest =>
      have hsum : (v :: rest).foldl (· + ·) 0 = (v :: rest).sum :=
        (List.sum_eq_foldl (l := v :: rest)).symm
      refine ⟨?_, rfl, ?_, rfl, rfl, rfl⟩
      · simpa [DataSummarizer.layerBasicStats, DataSummarizer.dfBasicStats] using hsum
      · simp only [DataSummarizer.layerBasicStats, DataSummarizer.dfBasicStats, hsum]

/-- C6 witness: the agreement theorem applied to the concrete values
`[0, 2]`. -/
theorem c6_summary_builders_agree_witness :
    (DataSummarizer.layerBasicStats [0, 2]).total =
        (DataSummarizer.dfBasicStats [0, 2]).total ∧
    (DataSummarizer.layerBasicStats [0, 2]).count =
        (DataSummarizer.dfBasicStats [0, 2]).count ∧
    (DataSummarizer.layerBasicStats [0, 2]).average =
        (DataSummarizer.dfBasicStats [0, 2]).average ∧
    (DataSummarizer.layerBasicStats [0, 2]).min =
        (DataSummarizer.dfBasicStats [0, 2]).min ∧
    (DataSummarizer.layerBasicStats [0, 2]).max =
        (DataSummarizer.dfBasicStats [0, 2]).max ∧
    (DataSummarizer.layerBasicStats [0, 2]).median =
        (DataSummarizer.dfBasicStats [0, 2]).median :=
  c6_summary_builders_agree_except_std [0, 2] (by simp)

/-- C7: value filters do not implement the claimed semantics when the
selection is only the `(vazio)` sentinel.  Drilling down on an NA cell
("Manter apenas este valor") sets the filter to `[NULL_SENTINEL]`, and
`_apply_filters` then keeps every row — the mask starts all-True and,
with no regular value selected, is only OR-ed with `isna` — while the
claimed semantics keeps exactly the NA rows. -/
theorem c7_sentinel_only_filter_keeps_all_rows :
    PowerQuery.drillDownSelection (none : Option Nat) = [none] ∧
    PowerQuery.applyFilters [("a", [(none : Option Nat)])]
        [[("a", some 1)], [("a", none)]] =
      [[("a", some 1)], [("a", none)]] ∧
    PowerQuery.applyFiltersClaim [("a", [(none : Option Nat)])]
        [[("a", some 1)], [("a", none)]] =
      [[("a", none)]] := by
  refine ⟨rfl, rfl, rfl⟩

/-- Helper: `_apply_dataframe` never touches the base dataframe. -/
theorem pq_applyDataframe_base {V : Type} (s : PowerQuery.PQState V)
    (df : PowerQuery.Df V) (v : Option (List String)) :
    (PowerQuery.applyDataframe s df v).base = s.base := rfl

/-- Helper: `_set_transformed_df` never touches the base dataframe. -/
theorem pq_setTransformedDf_base {V : Type} (s : PowerQuery.PQState V)
    (df : PowerQuery.Df V) (v : Option (List String)) (r : Bool) :
    (PowerQuery.setTransformedDf s df v r).base = s.base := rfl

/-- Helper: every modelled user operation preserves the base dataframe. -/
theorem pq_step_base {V : Type} [DecidableEq V] (s : PowerQuery.PQState V)
    (op : PowerQuery.Op V) : (PowerQuery.step s op).base = s.base := by
  cases op <;>
    simp only [PowerQuery.step, PowerQuery.filterValues, PowerQuery.drillDown,
      PowerQuery.removeFilterOp, PowerQuery.clearFilters, PowerQuery.refreshPreview,
      PowerQuery.chooseColumns, PowerQuery.removeColumn, PowerQuery.duplicateColumn,
      PowerQuery.removeDuplicates, PowerQuery.replaceValues, PowerQuery.sortModel,
      PowerQuery.revertToBase, PowerQuery.applyFiltersOp, PowerQuery.setTransformedDf,
      PowerQuery.applyDataframe] <;>
    (repeat' split) <;> rfl

/-- C9: the dataframe given to `set_dataframe` is preserved (the widget
only ever stores copies and rebinds; no operation writes the base), and
after any sequence of filter, transformation and sort operations the
Revert action restores exactly the original dataframe with all active
filters cleared. -/
theorem c9_revert_restores_original {V : Type} [DecidableEq V]
    (df : PowerQuery.Df V) (prot : Option (List String))
    (ops : List (PowerQuery.Op V)) :
    (ops.foldl PowerQuery.step
        (PowerQuery.set_dataframe (PowerQuery.initState V) df prot)).base = df ∧
    (PowerQuery.revertToBase (ops.foldl PowerQuery.step
        (PowerQuery.set_dataframe (PowerQuery.initState V) df prot))).transformed = df ∧
    (PowerQuery.revertToBase (ops.foldl PowerQuery.step
        (PowerQuery.set_dataframe (PowerQuery.initState V) df prot))).filtered = df ∧
    (PowerQuery.revertToBase (ops.foldl PowerQuery.step
        (PowerQuery.set_dataframe (PowerQuery.initState V) df prot))).activeFilters = [] := by
  have hfold : ∀ (l : List (PowerQuery.Op V)) (s : PowerQuery.PQState V),
      (l.foldl PowerQuery.step s).base = s.base := by
    intro l
    induction l with
    | nil => intro s; rfl
    | cons op rest ih =>
        intro s
        rw [List.foldl_cons, ih, pq_step_base]
  have hbase : (ops.foldl PowerQuery.step
      (PowerQuery.set_dataframe (PowerQuery.initState V) df prot)).base = df := by
    rw [hfold]
    rfl
  refine ⟨hbase, ?_, ?_, rfl⟩
  · show (ops.foldl PowerQuery.step
        (PowerQuery.set_dataframe (PowerQuery.initState V) df prot)).base = df
    exact hbase
  · show (ops.foldl PowerQuery.step
        (PowerQuery.set_dataframe (PowerQuery.initState V) df prot)).base = df
    exact hbase

/-- Helper: inserting a mapped element commutes with mapping when the
comparator only looks at what the map preserves. -/
theorem insertOrd_map {α β : Type} (f : α → β) (lt : α → α → Bool)
    (lt2 : β → β → Bool) (h : ∀ a b, lt2 (f a) (f b) = lt a b) (a : α)
    (l : List α) :
    insertOrd lt2 (f a) (l.map f) = (insertOrd lt a l).map f := by
  induction l with
  | nil => rfl
  | cons b bs ih =>
      simp only [List.map_cons, insertOrd, h]
      by_cases hab : lt a b
      · simp [hab]
      · simp [hab, ih]

/-- Helper: the insertion sort commutes with mapping when the comparator
only looks at what the map preserves. -/
theorem sortOrd_map {α β : Type} (f : α → β) (lt : α → α → Bool)
    (lt2 : β → β → Bool) (h : ∀ a b, lt2 (f a) (f b) = lt a b)
    (l : List α) :
    sortOrd lt2 (l.map f) = (sortOrd lt l).map f := by
  induction l with
  | nil => rfl
  | cons a as ih =>
      simp only [List.map_cons, sortOrd, ih]
      exact insertOrd_map f lt lt2 h a (sortOrd lt as)

/-- Helper: insertion produces a permutation. -/
theorem insertOrd_perm {α : Type} (lt : α → α → Bool) (a : α) (l : List α) :
    List.Perm (insertOrd lt a l) (a :: l) := by
  induction l with
  | nil => exact List.Perm.refl _
  | cons b bs ih =>
      simp only [insertOrd]
      by_cases h : lt a b
      · simp [h]
      · simp only [h, if_false, Bool.false_eq_true]
        exact (ih.cons b).trans (List.Perm.swap a b bs)

/-- Helper: the insertion sort permutes its input. -/
theorem sortOrd_perm {α : Type} (lt : α → α → Bool) (l : List α) :
    List.Perm (sortOrd lt l) l := by
  induction l with
  | nil => exact List.Perm.refl _
  | cons a as ih => exact (insertOrd_perm lt a (sortOrd lt as)).trans (ih.cons a)

/-- Helper: the aggregated total is invariant under the sort. -/
theorem aggTotal_sortOrd (lt : (String × Option ℚ) → (String × Option ℚ) → Bool)
    (ps : List (String × Option ℚ)) :
    PivotTable.aggTotal (sortOrd lt ps) = PivotTable.aggTotal ps := by
  unfold PivotTable.aggTotal
  exact ((sortOrd_perm lt ps).filterMap (fun p => p.2)).sum_eq

/-- Helper: the row-only branch of `_compute_pivot` (percent column
computed before sorting) equals the claim's description (the sorted
per-group aggregate with the percent column appended). -/
theorem pivot_rowonly_eq (tag : PivotTable.AggFunc)
    (aggFn : List (Option ℚ) → Option ℚ) (df : List PivotTable.DataRow) :
    PivotTable.computeRowOnly tag aggFn df =
      PivotTable.pivotSpecRowOnly tag aggFn df := by
  unfold PivotTable.computeRowOnly PivotTable.pivotSpecRowOnly
  rw [aggTotal_sortOrd]
  by_cases hcond : (tag = PivotTable.AggFunc.sum ∨ tag = PivotTable.AggFunc.count) ∧
      PivotTable.aggTotal (PivotTable.roundAgg tag (PivotTable.groupbyAgg aggFn df)) ≠ 0
  · rw [if_pos hcond, if_pos hcond]
    exact sortOrd_map
      (fun p => ({ key := p.1, value := p.2
                   pct := PivotTable.pctCell (PivotTable.aggTotal
                     (PivotTable.roundAgg tag (PivotTable.groupbyAgg aggFn df))) p.2 } :
        PivotTable.GroupRow))
      (fun a b => PivotTable.cmpValDesc a.2 b.2)
      (fun a b => PivotTable.cmpValDesc a.value b.value)
      (fun a b => rfl)
      (PivotTable.roundAgg tag (PivotTable.groupbyAgg aggFn df))
  · rw [if_neg hcond, if_neg hcond]
    exact sortOrd_map
      (fun p => ({ key := p.1, value := p.2, pct := none } : PivotTable.GroupRow))
      (fun a b => PivotTable.cmpValDesc a.2 b.2)
      (fun a b => PivotTable.cmpValDesc a.value b.value)
      (fun a b => rfl)
      (PivotTable.roundAgg tag (PivotTable.groupbyAgg aggFn df))

/-- C8: with both a row and a column field `_compute_pivot` produces the
pandas pivot table of the filtered data under the chosen aggregation
(non-count values rounded to two decimals), and with only a row field the
per-group aggregate sorted descending by the aggregated value with the
`% do total` column appended for sum/count when the total is nonzero. -/
theorem c8_pivot_matches_spec (tag : PivotTable.AggFunc)
    (aggFn : List (Option ℚ) → Option ℚ) (metric : String) (r c : String)
    (df : List PivotTable.DataRow) (hdf : df ≠ []) :
    PivotTable.computePivot tag aggFn metric (some r) (some c) df =
      .grid (PivotTable.pivotSpecBoth tag aggFn df) ∧
    PivotTable.computePivot tag aggFn metric (some r) none df =
      .rows (PivotTable.pivotSpecRowOnly tag aggFn df) := by
  have hne : df.isEmpty = false := by
    cases df
    · exact absurd rfl hdf
    · rfl
  constructor
  · unfold PivotTable.computePivot
    rw [hne]
    rfl
  · unfold PivotTable.computePivot
    rw [hne]
    simp only [Bool.false_eq_true, if_false]
    rw [pivot_rowonly_eq]

/-- C8 witness: the theorem applied to a concrete two-group dataframe
with the sum aggregation. -/
theorem c8_pivot_witness :
    PivotTable.computePivot PivotTable.AggFunc.sum
        (fun vs => some (vs.filterMap id).sum) "v" (some "g") (some "h")
        [{ rowKey := "a", colKey := "x", value := some 1 },
         { rowKey := "b", colKey := "x", value := some 3 }] =
      .grid (PivotTable.pivotSpecBoth PivotTable.AggFunc.sum
        (fun vs => some (vs.filterMap id).sum)
        [{ rowKey := "a", colKey := "x", value := some 1 },
         { rowKey := "b", colKey := "x", value := some 3 }]) ∧
    PivotTable.computePivot PivotTable.AggFunc.sum
        (fun vs => some (vs.filterMap id).sum) "v" (some "g") none
        [{ rowKey := "a", colKey := "x", value := some 1 },
         { rowKey := "b", colKey := "x", value := some 3 }] =
      .rows (PivotTable.pivotSpecRowOnly PivotTable.AggFunc.sum
        (fun vs => some (vs.filterMap id).sum)
        [{ rowKey := "a", colKey := "x", value := some 1 },
         { rowKey := "b", colKey := "x", value := some 3 }]) :=
  c8_pivot_matches_spec PivotTable.AggFunc.sum
    (fun vs => some (vs.filterMap id).sum) "v" "g" "h"
    [{ rowKey := "a", colKey := "x", value := some 1 },
     { rowKey := "b", colKey := "x", value := some 3 }] (by simp)

/-- Helper: decoding inverts encoding on every sextet. -/
theorem b64_dec_enc_all :
    ∀ n : Fin 64, CloudSession.b64DecodeChar (CloudSession.b64Char n.val) = some n.val := by
  decide

/-- Helper: no alphabet character is the padding character. -/
theorem b64Char_ne_pad_all : ∀ n : Fin 64, CloudSession.b64Char n.val ≠ '=' := by
  decide

/-- Helper: fuel-indexed base64 round trip over byte lists. -/
theorem b64_roundtrip_fuel : ∀ (fuel : Nat) (bs : List Nat), bs.length ≤ fuel →
    (∀ b ∈ bs, b < 256) →
    CloudSession.b64Decode (CloudSession.b64Encode bs) = some bs := by
  intro fuel
  induction fuel with
  | zero =>
      intro bs hlen _
      cases bs with
      | nil => rfl
      | cons a t => simp at hlen
  | succ fuel ih =>
      intro bs hlen hbound
      match bs with
      | [] => rfl
      | [a] =>
          have ha : a < 256 := hbound a (by simp)
          have h1 := b64_dec_enc_all ⟨a / 4, by omega⟩
          have h2 := b64_dec_enc_all ⟨a % 4 * 16, by omega⟩
          simp only [CloudSession.b64Encode, CloudSession.b64Decode, h1, h2]
          simp
          try omega
      | [a, b] =>
          have ha : a < 256 := hbound a (by simp)
          have hb : b < 256 := hbound b (by simp)
          have h1 := b64_dec_enc_all ⟨a / 4, by omega⟩
          have h2 := b64_dec_enc_all ⟨a % 4 * 16 + b / 16, by omega⟩
          have h3 := b64_dec_enc_all ⟨b % 16 * 4, by omega⟩
          have hn3 := b64Char_ne_pad_all ⟨b % 16 * 4, by omega⟩
          simp only [CloudSession.b64Encode, CloudSession.b64Decode, h1, h2, h3,
            if_neg hn3, if_pos rfl]
          simp
          try omega
      | a :: b :: c :: rest =>
          have ha : a < 256 := hbound a (by simp)
          have hb : b < 256 := hbound b (by simp)
          have hc : c < 256 := hbound c (by simp)
          have h1 := b64_dec_enc_all ⟨a / 4, by omega⟩
          have h2 := b64_dec_enc_all ⟨a % 4 * 16 + b / 16, by omega⟩
          have h3 := b64_dec_enc_all ⟨b % 16 * 4 + c / 64, by omega⟩
          have h4 := b64_dec_enc_all ⟨c % 64, by omega⟩
          have hn3 := b64Char_ne_pad_all ⟨b % 16 * 4 + c / 64, by omega⟩
          have hn4 := b64Char_ne_pad_all ⟨c % 64, by omega⟩
          have hrest : CloudSession.b64Decode (CloudSession.b64Encode rest) = some rest := by
            apply ih
            · simp at hlen
              omega
            · intro x hx
              exact hbound x (by simp [hx])
          simp only [CloudSession.b64Encode, CloudSession.b64Decode, h1, h2, h3, h4,
            if_neg hn3, if_neg hn4, hrest]
          simp
          try omega

/-- Helper: every unicode scalar value is below `0x110000`. -/
theorem char_toNat_lt (c : Char) : c.toNat < 0x110000 := by
  rcases c.valid with h | ⟨_, h⟩
  · have : c.toNat < 0xd800 := h
    omega
  · exact h

/-- Helper: `utf8DecodeOne` inverts `utf8EncodeChar` in front of any
byte tail. -/
theorem utf8DecodeOne_enc (c : Char) (bs : List Nat) :
    CloudSession.utf8DecodeOne (CloudSession.utf8EncodeChar c ++ bs) = some (c, bs) := by
  have hval := char_toNat_lt c
  unfold CloudSession.utf8EncodeChar
  by_cases h1 : c.toNat < 0x80
  · rw [if_pos h1]
    show CloudSession.utf8DecodeOne (c.toNat :: bs) = _
    simp only [CloudSession.utf8DecodeOne]
    rw [if_pos h1, Char.ofNat_toNat]
  · rw [if_neg h1]
    by_cases h2 : c.toNat < 0x800
    · rw [if_pos h2]
      show CloudSession.utf8DecodeOne
        ((0xC0 + c.toNat / 0x40) :: (0x80 + c.toNat % 0x40) :: bs) = _
      simp only [CloudSession.utf8DecodeOne]
      rw [if_neg (by omega),
        if_pos (by omega : 0xC0 ≤ 0xC0 + c.toNat / 0x40 ∧ 0xC0 + c.toNat / 0x40 < 0xE0)]
      simp only [CloudSession.decodeTail1]
      have hcont : CloudSession.isCont (0x80 + c.toNat % 0x40) = true := by
        simp only [CloudSession.isCont, decide_eq_true_eq]
        omega
      rw [if_pos hcont]
      have harg : (0xC0 + c.toNat / 0x40 - 0xC0) * 0x40 + (0x80 + c.toNat % 0x40 - 0x80) =
          c.toNat := by omega
      rw [harg, Char.ofNat_toNat]
    · rw [if_neg h2]
      by_cases h3 : c.toNat < 0x10000
      · rw [if_pos h3]
        show CloudSession.utf8DecodeOne ((0xE0 + c.toNat / 0x1000) ::
          (0x80 + c.toNat / 0x40 % 0x40) :: (0x80 + c.toNat % 0x40) :: bs) = _
        simp only [CloudSession.utf8DecodeOne]
        rw [if_neg (by omega),
          if_neg (by omega :
            ¬ (0xC0 ≤ 0xE0 + c.toNat / 0x1000 ∧ 0xE0 + c.toNat / 0x1000 < 0xE0)),
          if_pos (by omega :
            0xE0 ≤ 0xE0 + c.toNat / 0x1000 ∧ 0xE0 + c.toNat / 0x1000 < 0xF0)]
        simp only [CloudSession.decodeTail2]
        have hcont : (CloudSession.isCont (0x80 + c.toNat / 0x40 % 0x40) = true ∧
            CloudSession.isCont (0x80 + c.toNat % 0x40) = true) := by
          simp only [CloudSession.isCont, decide_eq_true_eq]
          omega
        rw [if_pos hcont]
        have harg : (0xE0 + c.toNat / 0x1000 - 0xE0) * 0x1000 +
            (0x80 + c.toNat / 0x40 % 0x40 - 0x80) * 0x40 +
            (0x80 + c.toNat % 0x40 - 0x80) = c.toNat := by omega
        rw [harg, Char.ofNat_toNat]
      · rw [if_neg h3]
        show CloudSession.utf8DecodeOne ((0xF0 + c.toNat / 0x40000) ::
          (0x80 + c.toNat / 0x1000 % 0x40) :: (0x80 + c.toNat / 0x40 % 0x40) ::
          (0x80 + c.toNat % 0x40) :: bs) = _
        simp only [CloudSession.utf8DecodeOne]
        rw [if_neg (by omega),
          if_neg (by omega :
            ¬ (0xC0 ≤ 0xF0 + c.toNat / 0x40000 ∧ 0xF0 + c.toNat / 0x40000 < 0xE0)),
          if_neg (by omega :
            ¬ (0xE0 ≤ 0xF0 + c.toNat / 0x40000 ∧ 0xF0 + c.toNat / 0x40000 < 0xF0)),
          if_pos (by omega :
            0xF0 ≤ 0xF0 + c.toNat / 0x40000 ∧ 0xF0 + c.toNat / 0x40000 < 0xF8)]
        simp only [CloudSession.decodeTail3]
        have hcont : (CloudSession.isCont (0x80 + c.toNat / 0x1000 % 0x40) = true ∧
            CloudSession.isCont (0x80 + c.toNat / 0x40 % 0x40) = true ∧
            CloudSession.isCont (0x80 + c.toNat % 0x40) = true) := by
          simp only [CloudSession.isCont, decide_eq_true_eq]
          omega
        rw [if_pos hcont]
        have harg : (0xF0 + c.toNat / 0x40000 - 0xF0) * 0x40000 +
            (0x80 + c.toNat / 0x1000 % 0x40 - 0x80) * 0x1000 +
            (0x80 + c.toNat / 0x40 % 0x40 - 0x80) * 0x40 +
            (0x80 + c.toNat % 0x40 - 0x80) = c.toNat := by omega
        rw [harg, Char.ofNat_toNat]

/-- Helper: one encoded character in front of a tail is a cons cell. -/
theorem utf8EncodeChar_cons (c : Char) (bs : List Nat) :
    ∃ b tl, CloudSession.utf8EncodeChar c ++ bs = b :: tl := by
  simp only [CloudSession.utf8EncodeChar]
  by_cases h1 : c.toNat < 0x80 <;> by_cases h2 : c.toNat < 0x800 <;>
    by_cases h3 : c.toNat < 0x10000 <;>
    simp [h1, h2, h3]

/-- Helper: decoding the empty byte list ignores the fuel. -/
theorem utf8DecodeAux_nil (fuel : Nat) : CloudSession.utf8DecodeAux fuel [] = some [] := by
  cases fuel <;> rfl

/-- Helper: decoding an encoded character in front of a tail peels it off. -/
theorem utf8_aux_prepend (c : Char) (fuel : Nat) (bs : List Nat) :
    CloudSession.utf8DecodeAux (fuel + 1) (CloudSession.utf8EncodeChar c ++ bs) =
      match CloudSession.utf8DecodeAux fuel bs with
      | some cs => some (c :: cs)
      | none => none := by
  obtain ⟨b, tl, heq⟩ := utf8EncodeChar_cons c bs
  rw [heq]
  simp only [CloudSession.utf8DecodeAux]
  rw [← heq, utf8DecodeOne_enc]

/-- Helper: fuel-indexed UTF-8 round trip. -/
theorem utf8_aux_roundtrip (cs : List Char) :
    ∀ fuel, cs.length ≤ fuel →
      CloudSession.utf8DecodeAux fuel (CloudSession.utf8Encode cs) = some cs := by
  induction cs with
  | nil =>
      intro fuel _
      exact utf8DecodeAux_nil fuel
  | cons c rest ih =>
      intro fuel hlen
      match fuel with
      | f + 1 =>
          show CloudSession.utf8DecodeAux (f + 1)
            (CloudSession.utf8EncodeChar c ++ CloudSession.utf8Encode rest) = _
          rw [utf8_aux_prepend, ih f (by simpa using hlen)]

/-- Helper: the encoding has at least one byte per character. -/
theorem utf8Encode_length_ge (cs : List Char) :
    cs.length ≤ (CloudSession.utf8Encode cs).length := by
  induction cs with
  | nil => simp [CloudSession.utf8Encode]
  | cons c rest ih =>
      have h1 : 1 ≤ (CloudSession.utf8EncodeChar c).length := by
        simp only [CloudSession.utf8EncodeChar]
        repeat' split
        all_goals simp
      show (c :: rest).length ≤
        (CloudSession.utf8EncodeChar c ++ CloudSession.utf8Encode rest).length
      simp only [List.length_cons, List.length_append]
      omega

/-- Helper: `bytes.decode` inverts `str.encode` (`utf-8`). -/
theorem utf8_roundtrip (cs : List Char) :
    CloudSession.utf8Decode (CloudSession.utf8Encode cs) = some cs := by
  unfold CloudSession.utf8Decode
  exact utf8_aux_roundtrip cs (CloudSession.utf8Encode cs).length (utf8Encode_length_ge cs)

/-- Helper: every UTF-8 byte of one character fits in a byte. -/
theorem utf8EncodeChar_bytes_lt (c : Char) :
    ∀ b ∈ CloudSession.utf8EncodeChar c, b < 256 := by
  have hval := char_toNat_lt c
  intro b hb
  simp only [CloudSession.utf8EncodeChar] at hb
  repeat' split at hb
  all_goals simp at hb
  all_goals omega

/-- Helper: every UTF-8 byte of a string fits in a byte. -/
theorem utf8Encode_bytes_lt (cs : List Char) :
    ∀ b ∈ CloudSession.utf8Encode cs, b < 256 := by
  intro b hb
  simp only [CloudSession.utf8Encode, List.mem_flatMap] at hb
  obtain ⟨c, _, hc⟩ := hb
  exact utf8EncodeChar_bytes_lt c b hc

/-- Helper: base64 decoding inverts encoding on byte lists. -/
theorem b64_roundtrip (bs : List Nat) (h : ∀ b ∈ bs, b < 256) :
    CloudSession.b64Decode (CloudSession.b64Encode bs) = some bs :=
  b64_roundtrip_fuel bs.length bs le_rfl h

/-- C10: deobfuscation inverts obfuscation on every token (a Python
`str` as its sequence of code points), and any string that does not
start with the `obf:` prefix is returned unchanged by
`_deobfuscate_token`. -/
theorem c10_token_obfuscation_roundtrip (t : List Char) :
    CloudSession.deobfuscate_token (CloudSession.obfuscate_token t) = t ∧
    (¬ "obf:".toList.isPrefixOf t → CloudSession.deobfuscate_token t = t) := by
  constructor
  · by_cases ht : t.isEmpty
    · have hnil : t = [] := by
        cases t
        · rfl
        · simp [List.isEmpty] at ht
      rw [hnil]
      rfl
    · unfold CloudSession.obfuscate_token
      rw [if_neg ht]
      unfold CloudSession.deobfuscate_token
      rw [if_neg (by simp)]
      have hpre : "obf:".toList.isPrefixOf ("obf:".toList ++
          CloudSession.b64Encode (CloudSession.utf8Encode t.reverse)) = true := by
        simp [List.isPrefixOf_iff_prefix]
      rw [if_neg (by simp [hpre])]
      have hdrop : ("obf:".toList ++
          CloudSession.b64Encode (CloudSession.utf8Encode t.reverse)).drop 4 =
          CloudSession.b64Encode (CloudSession.utf8Encode t.reverse) := by
        rw [show (4 : Nat) = ("obf:".toList).length from rfl, List.drop_left]
      rw [hdrop, b64_roundtrip _ (utf8Encode_bytes_lt t.reverse)]
      simp only [utf8_roundtrip, List.reverse_reverse]
  · intro hpre
    unfold CloudSession.deobfuscate_token
    by_cases ht : t.isEmpty
    · have hnil : t = [] := by
        cases t
        · rfl
        · simp [List.isEmpty] at ht
      rw [if_pos ht, hnil]
    · rw [if_neg ht, if_pos hpre]

/-- C10 witness: the round trip and the unchanged-return at the concrete
token `"x"`. -/
theorem c10_token_obfuscation_witness :
    CloudSession.deobfuscate_token (CloudSession.obfuscate_token ['x']) = ['x'] ∧
    CloudSession.deobfuscate_token ['x'] = ['x'] :=
  ⟨(c10_token_obfuscation_roundtrip ['x']).1,
    (c10_token_obfuscation_roundtrip ['x']).2 (by decide)⟩
